import Mathlib

/-
  Verification of the virtual queue management system ML service
  (src/ml-service) against its natural-language specification.

  Shallow embedding conventions:
  - Python floats are modelled as exact rationals.  Every constant in the
    source is a short decimal literal and every claim proved here is robust
    to the sub-ulp float error of the original arithmetic.
  - Python ints are modelled as ZMod-free mathematical integers, matching
    the unbounded Python int type.
  - The call to numpy random uniform in WaitTimePredictor is modelled by an
    explicit rng argument carrying the value drawn for that call; a fresh
    value is drawn on every call in the source.
  - Python int() truncates toward zero; round(x, n) rounds half to even.
-/

set_option allowUnsafeReducibility true in
attribute [semireducible] Rat.add Rat.sub Rat.mul Rat.inv

namespace VQMS

/-- Python str.lower().  CPython lowercases the full Unicode range; every
string this development compares after lowering is ASCII, where the two
agree, so the ASCII mapping of Char.toLower suffices. -/
def pyLower (s : String) : String := ⟨s.data.map Char.toLower⟩

/-- Python int() applied to a float value: truncation toward zero. -/
def pyTrunc (q : ℚ) : ℤ := if q < 0 then ⌈q⌉ else ⌊q⌋

/-- Python round() to an integer: nearest integer, ties to even. -/
def pyRoundInt (q : ℚ) : ℤ :=
  if q - (⌊q⌋ : ℚ) < 1/2 then ⌊q⌋
  else if 1/2 < q - (⌊q⌋ : ℚ) then ⌊q⌋ + 1
  else if ⌊q⌋ % 2 = 0 then ⌊q⌋ else ⌊q⌋ + 1

/-- Python round(x, 3). -/
def pyRound3 (q : ℚ) : ℚ := (pyRoundInt (q * 1000) : ℚ) / 1000

/-- Python round(x, 2). -/
def pyRound2 (q : ℚ) : ℚ := (pyRoundInt (q * 100) : ℚ) / 100

/-
  models/no_show_rf_simple.py — class NoShowPredictor
-/

/-- default_probabilities dictionary lookup with default 0.12, applied to
priority.lower() as in line 32 of no_show_rf_simple.py. -/
def noShowBaseProb (priority : String) : ℚ :=
  if pyLower priority = "emergency" then 2/100
  else if pyLower priority = "disabled" then 5/100
  else if pyLower priority = "senior" then 8/100
  else if pyLower priority = "normal" then 12/100
  else 12/100

/-- Lines 31-56 of no_show_rf_simple.py: the additive adjustment chain.
The wait-time adjustment reproduces the source exactly: an if branch for
estimated_wait greater than 60 followed by an elif branch for greater
than 90, so the elif branch is unreachable. -/
def noShowRaw (priority : String)
    (queue_position day_of_week hour_of_day estimated_wait : ℤ) : ℚ :=
  let b0 := noShowBaseProb priority
  let b1 := if 15 < queue_position then b0 + 5/100 else b0
  let b2 := if 30 < queue_position then b1 + 10/100 else b1
  let b3 := if 60 < estimated_wait then b2 + 8/100
            else if 90 < estimated_wait then b2 + 15/100 else b2
  let b4 := if 17 ≤ hour_of_day then b3 + 8/100 else b3
  let b5 := if 12 ≤ hour_of_day ∧ hour_of_day ≤ 14 then b4 + 5/100 else b4
  let b6 := if day_of_week = 4 then b5 + 5/100 else b5
  if 5 ≤ day_of_week then b6 - 3/100 else b6

/-- Line 59: final_prob = min(0.70, max(0.01, base_prob)). -/
def noShowFinal (priority : String)
    (queue_position day_of_week hour_of_day estimated_wait : ℤ) : ℚ :=
  min (70/100) (max (1/100)
    (noShowRaw priority queue_position day_of_week hour_of_day estimated_wait))

/-- Line 61: risk level thresholds. -/
def noShowRiskLevel (final_prob : ℚ) : String :=
  if final_prob < 15/100 then "low"
  else if final_prob < 35/100 then "medium" else "high"

/-- Lines 63-68: recommendation strings. -/
def noShowRecommendations (final_prob : ℚ) : List String :=
  if 40/100 < final_prob then
    ["Send additional reminder notification",
     "Consider calling next token as backup"]
  else if final_prob < 10/100 then
    ["Low risk - standard notification sufficient"]
  else []

structure NoShowResult where
  no_show_probability : ℚ
  confidence : ℚ
  risk_level : String
  model_used : String
  recommendations : List String
deriving DecidableEq

/-- NoShowPredictor.predict.  The token_id and service_id parameters are
declared in the source signature and never read in the body. -/
def noShowPredict (token_id service_id priority : String)
    (queue_position day_of_week hour_of_day estimated_wait : ℤ) : NoShowResult :=
  let final_prob :=
    noShowFinal priority queue_position day_of_week hour_of_day estimated_wait
  { no_show_probability := pyRound3 final_prob
    confidence := 75/100
    risk_level := noShowRiskLevel final_prob
    model_used := "rule_based_v2"
    recommendations := noShowRecommendations final_prob }

/-
  models/wait_time_arima.py — class WaitTimePredictor
-/

/-- Mutable state of a WaitTimePredictor instance: the
average_service_times dictionary (string keys to integer minutes; the
constructor installs the entry default mapped to 10) and the key set of the
historical_data dictionary.  The per-service statistics stored by train
(samples, avg_wait, std_wait) are never read by predict, which only tests
key membership, so only the key set is modelled. -/
structure WaitState where
  avgTimes : List (String × ℤ)
  histServices : List String
deriving DecidableEq

/-- State of a freshly constructed WaitTimePredictor. -/
def initialWaitState : WaitState := ⟨[("default", 10)], []⟩

/-- Association-list lookup mirroring a Python dict get. -/
def lookupAssoc : List (String × ℤ) → String → Option ℤ
  | [], _ => none
  | (k, v) :: rest, s => if k = s then some v else lookupAssoc rest s

/-- Line 48: average_service_times.get(service_id,
average_service_times of the default key).  The final fallback 10 is
unreachable in the source, where the default key is always present (its
absence would raise KeyError). -/
def getAvgServiceTime (st : WaitState) (service_id : String) : ℤ :=
  match lookupAssoc st.avgTimes service_id with
  | some v => v
  | none =>
    match lookupAssoc st.avgTimes "default" with
    | some v => v
    | none => 10

/-- Line 55: priority_multipliers.get(priority.lower(), 1.0). -/
def priorityMultiplier (priority : String) : ℚ :=
  if pyLower priority = "emergency" then 2/10
  else if pyLower priority = "disabled" then 5/10
  else if pyLower priority = "senior" then 7/10
  else if pyLower priority = "normal" then 1
  else 1

/-- WaitTimePredictor._get_time_multiplier. -/
def timeMultiplier (hour : ℕ) : ℚ :=
  if (9 ≤ hour ∧ hour ≤ 11) ∨ (14 ≤ hour ∧ hour ≤ 16) then 13/10
  else if 12 ≤ hour ∧ hour ≤ 13 then 8/10
  else if hour < 9 ∨ 17 < hour then 9/10
  else 1

/-- WaitTimePredictor._get_day_multiplier. -/
def dayMultiplier (weekday : ℕ) : ℚ :=
  if weekday = 0 then 14/10
  else if weekday = 4 then 12/10
  else if 5 ≤ weekday then 7/10
  else 1

/-- Lines 67-70: multiply by the historical variation when the service has
historical data.  The variation value is the uniform draw from
[0.9, 1.1] made by _calculate_historical_variation for this call, passed
here as the rng argument. -/
def applyVariation (st : WaitState) (service_id : String) (adjusted rng : ℚ) : ℚ :=
  if service_id ∈ st.histServices then adjusted * rng else adjusted

/-- WaitTimePredictor._calculate_confidence. -/
def waitConfidence (st : WaitState) (service_id : String) (queue_position : ℤ) : ℚ :=
  let b0 : ℚ := 75/100
  let b1 := if 20 < queue_position then b0 - 1/10 else b0
  let b2 := if 50 < queue_position then b1 - 1/10 else b1
  let b3 := if service_id ∈ st.histServices then b2 + 1/10 else b2
  min (95/100) (max (5/10) b3)

structure WaitBreakdown where
  base_time : ℤ
  queue_position : ℤ
  priority_adjustment : ℚ
  time_of_day_factor : ℚ
  day_of_week_factor : ℚ
deriving DecidableEq

structure WaitResult where
  predicted_wait_time : ℤ
  confidence : ℚ
  model_used : String
  breakdown : WaitBreakdown
deriving DecidableEq

/-- WaitTimePredictor.predict.  Of current_time only the hour and the
weekday are read, so they are the parameters.  The rng parameter is the
value drawn by numpy random uniform for this call (used only when the
service has historical data). -/
def waitPredict (st : WaitState) (service_id : String) (queue_position : ℤ)
    (priority : String) (hour weekday : ℕ) (rng : ℚ) : WaitResult :=
  let base_time := getAvgServiceTime st service_id
  let priority_mult := priorityMultiplier priority
  let time_mult := timeMultiplier hour
  let day_mult := dayMultiplier weekday
  let adjusted_wait :=
    ((queue_position : ℚ) * (base_time : ℚ)) * priority_mult * time_mult * day_mult
  let with_variation := applyVariation st service_id adjusted_wait rng
  { predicted_wait_time := max 3 (min (pyTrunc with_variation) 240)
    confidence := pyRound2 (waitConfidence st service_id queue_position)
    model_used := "enhanced_arima_v2"
    breakdown :=
      { base_time := base_time
        queue_position := queue_position
        priority_adjustment := priority_mult
        time_of_day_factor := pyRound2 time_mult
        day_of_week_factor := pyRound2 day_mult } }

/-- Training record: one row of the DataFrame consumed by
WaitTimePredictor.train (the timestamp and priority columns are never
read). -/
structure TrainRecord where
  service_id : String
  actual_wait_time : ℚ
  queue_position : ℚ
deriving DecidableEq

/-- Unique service ids in first-occurrence order, as pandas unique(). -/
def firstUniquesAux : List String → List String → List String
  | [], acc => acc.reverse
  | s :: rest, acc =>
    if s ∈ acc then firstUniquesAux rest acc else firstUniquesAux rest (s :: acc)

def firstUniques (l : List String) : List String := firstUniquesAux l []

/-- Python dict assignment on the association list. -/
def updateAssoc : List (String × ℤ) → String → ℤ → List (String × ℤ)
  | [], k, v => [(k, v)]
  | (k0, v0) :: rest, k, v =>
    if k0 = k then (k, v) :: rest else (k0, v0) :: updateAssoc rest k v

/-- Lines 168-180 of wait_time_arima.py for one service: store
max(5, int(mean(actual_wait_time) / mean(queue_position))) and mark the
service as having historical data. -/
def trainService (st : WaitState) (data : List TrainRecord) (sid : String) : WaitState :=
  let sdata := data.filter (fun r => r.service_id == sid)
  let n : ℚ := (sdata.length : ℚ)
  let avg_time := ((sdata.map (fun r => r.actual_wait_time)).sum / n) /
                  ((sdata.map (fun r => r.queue_position)).sum / n)
  { avgTimes := updateAssoc st.avgTimes sid (max 5 (pyTrunc avg_time))
    histServices :=
      if sid ∈ st.histServices then st.histServices else st.histServices ++ [sid] }

/-- WaitTimePredictor.train: a no-op below 30 records, otherwise one
trainService pass per unique service id. -/
def waitTrain (st : WaitState) (data : List TrainRecord) : WaitState :=
  if data.length < 30 then st
  else (firstUniques (data.map (fun r => r.service_id))).foldl
    (fun s sid => trainService s data sid) st

/-- A state produced by train from 30 identical records: the service svc
has average service time 100 / 10 = 10 and historical data present. -/
def trainedState : WaitState :=
  waitTrain initialWaitState (List.replicate 30 ⟨"svc", 100, 10⟩)

/-- States reachable through the constructor, train and load: every stored
average service time is at least 5 (train clamps with max(5, ...) and the
constructor stores 10). -/
def WaitStateWF (st : WaitState) : Prop := ∀ p ∈ st.avgTimes, 5 ≤ p.2

/-
  models/demand_forecast_simple.py — class DemandForecaster
-/

/-- Lines 66-72: the hourly_pattern dictionary with default 10. -/
def hourlyPattern (hour : ℕ) : ℤ :=
  if hour = 8 then 15 else if hour = 9 then 35 else if hour = 10 then 45
  else if hour = 11 then 40 else if hour = 12 then 25 else if hour = 13 then 20
  else if hour = 14 then 38 else if hour = 15 then 42 else if hour = 16 then 35
  else if hour = 17 then 20 else if hour = 18 then 10 else if hour = 19 then 5
  else if hour = 20 then 3 else 10

/-- Lines 75-85: the day_multipliers dictionary with default 1.0. -/
def demandDayMultiplier (weekday : ℕ) : ℚ :=
  if weekday = 0 then 14/10 else if weekday = 1 then 11/10
  else if weekday = 2 then 1 else if weekday = 3 then 1
  else if weekday = 4 then 12/10 else if weekday = 5 then 6/10
  else if weekday = 6 then 4/10 else 1

/-- DemandForecaster._predict_hour.  The service_id parameter is declared
and never read in the source body. -/
def predictHourDemand (service_id : String) (hour weekday : ℕ) : ℤ :=
  max 1 (pyTrunc ((hourlyPattern hour : ℚ) * demandDayMultiplier weekday))

/-- One entry of forecast_data.  The source stores the forecast time as an
ISO timestamp string; here it is the absolute hour count
timestampHours = currentHours + offset, where currentHours counts whole
hours since a Monday-midnight epoch (the sub-hour part of current_time is
never read, since adding whole hours leaves it unchanged and hour and
weekday depend only on the whole-hour count). -/
structure ForecastPoint where
  timestampHours : ℕ
  hour : ℕ
  weekday : ℕ
  predicted_tokens : ℤ
  lower_bound : ℤ
  upper_bound : ℤ
  demand_level : String
  recommended_counters : ℤ
deriving DecidableEq

/-- Loop body of DemandForecaster.forecast for one hour offset. -/
def mkForecastPoint (service_id : String) (currentHours offset : ℕ) : ForecastPoint :=
  let t := currentHours + offset
  let hour := t % 24
  let weekday := (t / 24) % 7
  let predicted_demand := predictHourDemand service_id hour weekday
  { timestampHours := t
    hour := hour
    weekday := weekday
    predicted_tokens := predicted_demand
    lower_bound := pyTrunc ((predicted_demand : ℚ) * (75/100))
    upper_bound := pyTrunc ((predicted_demand : ℚ) * (125/100))
    demand_level :=
      if predicted_demand < 20 then "low"
      else if predicted_demand < 35 then "moderate" else "high"
    recommended_counters := max 1 ⌈(predicted_demand : ℚ) / 15⌉ }

/-- The forecast_data list: one point per offset in range(1, hours_ahead + 1). -/
def forecastPoints (service_id : String) (hoursAhead currentHours : ℕ) : List ForecastPoint :=
  (List.range hoursAhead).map (fun i => mkForecastPoint service_id currentHours (i + 1))

/-- Python max with a key over a nonempty list: the first point with the
maximal predicted_tokens. -/
def firstPeak : ForecastPoint → List ForecastPoint → ForecastPoint
  | p, [] => p
  | p, q :: rest =>
    if p.predicted_tokens < q.predicted_tokens then firstPeak q rest
    else firstPeak p rest

/-- Return value of DemandForecaster.forecast.  The two insight strings
(pure text built with strftime from the peak point) are not modelled; the
summary numbers are. -/
structure ForecastResult where
  forecast : List ForecastPoint
  confidence : String
  model_used : String
  total_predicted_tokens : ℤ
  peak_demand : ℤ
  recommended_total_staff : ℤ
deriving DecidableEq

/-- DemandForecaster.forecast.  On an empty horizon the source raises
ValueError (max() of an empty sequence), modelled as none. -/
def forecastDemand (service_id : String) (hoursAhead currentHours : ℕ) :
    Option ForecastResult :=
  match forecastPoints service_id hoursAhead currentHours with
  | [] => none
  | p :: rest =>
    some { forecast := p :: rest
           confidence := "medium"
           model_used := "time_series_v2"
           total_predicted_tokens := ((p :: rest).map (fun f => f.predicted_tokens)).sum
           peak_demand := (firstPeak p rest).predicted_tokens
           recommended_total_staff := (firstPeak p rest).recommended_counters }

/-
  models/emergency_classifier.py — class EmergencyClassifier
  String helpers modelling the Python primitives used there.
-/

/-- The characters Python str.strip() and str.split() treat as whitespace
(the rare non-ASCII Unicode space characters are not modelled; no claim
involves them). -/
def isPySpace (c : Char) : Bool :=
  c == ' ' || c == '\t' || c == '\n' || c == '\r' || c == '\x0b' || c == '\x0c'

/-- Python str.strip(). -/
def pyStrip (s : String) : String :=
  ⟨((s.data.dropWhile isPySpace).reverse.dropWhile isPySpace).reverse⟩

/-- Number of words of Python str.split() with no separator: the count of
maximal runs of non-whitespace characters. -/
def countWordsAux : List Char → Bool → ℕ
  | [], _ => 0
  | c :: rest, inWord =>
    if isPySpace c then countWordsAux rest false
    else (if inWord then 0 else 1) + countWordsAux rest true

def wordCount (s : String) : ℕ := countWordsAux s.data false

/-- Python substring containment: needle in hay. -/
def containsSub (needle : List Char) : List Char → Bool
  | [] => needle.isEmpty
  | c :: t => needle.isPrefixOf (c :: t) || containsSub needle t

def strContains (hay needle : String) : Bool := containsSub needle.data hay.data

/-- re.search of a pattern of the literal-dot-star-literal shape
(every entry of suspicious_patterns has that shape): some occurrence of
the first literal followed, at or after its end, by the second. -/
def containsSeq (a b : List Char) : List Char → Bool
  | [] => a.isEmpty && b.isEmpty
  | c :: t =>
    (a.isPrefixOf (c :: t) && containsSub b ((c :: t).drop a.length)) ||
    containsSeq a b t

/-- Lines 16-22: genuine_keywords, in dict insertion order. -/
def genuineKeywords : List (String × List String) :=
  [("medical", ["heart", "stroke", "bleeding", "unconscious", "accident",
     "injury", "pain", "ambulance", "hospital", "surgery", "critical",
     "urgent", "emergency", "fever", "breathing", "chest pain"]),
   ("legal", ["court", "hearing", "deadline", "arrest", "bail", "warrant",
     "summons", "legal notice"]),
   ("travel", ["flight", "train", "departure", "leave", "travel", "visa",
     "passport"]),
   ("death", ["death", "funeral", "deceased", "passed away", "cremation",
     "burial"]),
   ("pregnancy", ["pregnant", "delivery", "labor", "maternity", "childbirth"])]

/-- Lines 25-31: suspicious_patterns, each split at its dot-star. -/
def suspiciousPatterns : List (String × String) :=
  [("urgent", "today"), ("very", "urgent"), ("please", "fast"),
   ("need", "now"), ("important", "work")]

/-- Lines 34-37: false_indicators. -/
def falseIndicators : List String :=
  ["just need", "want to", "prefer", "would like", "hoping for",
   "quick", "fast", "soon", "today only", "busy schedule"]

/-- Return value of EmergencyClassifier.classify.  The short-text early
return at lines 52-59 carries neither a matched_categories nor a timestamp
key, hence the Option types: it returns none for both. -/
structure ClaimClassification where
  classification : String
  confidence : ℚ
  reasoning : String
  requires_admin_review : Bool
  suggested_priority : String
  matched_categories : Option (List String)
  timestamp : Option String
deriving DecidableEq

/-- The early return of classify for missing or short text. -/
def shortReasonResult : ClaimClassification :=
  { classification := "false"
    confidence := 95/100
    reasoning := "Emergency reason too short or missing. Genuine emergencies require detailed explanation."
    requires_admin_review := false
    suggested_priority := "NORMAL"
    matched_categories := none
    timestamp := none }

/-- Lines 61-126 of EmergencyClassifier.classify: the scoring path taken
when the reason text passes the length guard.  The now argument is the
wall-clock ISO timestamp the source obtains from datetime.now() at line
125.  In the source the genuine score is increased only for categories
with a positive match count; since a zero count contributes zero, the
unconditional sum used here is equal. -/
def classifyLongReason (now : String) (s : String) : ClaimClassification :=
      let rl := pyLower s
      let matched := (genuineKeywords.filter
        (fun cat => 0 < (cat.2.filter (fun kw => strContains rl kw)).length)).map
        (fun cat => cat.1)
      let genuine0 : ℚ := (genuineKeywords.map
        (fun cat => ((cat.2.filter (fun kw => strContains rl kw)).length : ℚ) * (2/10))).sum
      let false0 : ℚ :=
        ((falseIndicators.filter (fun ind => strContains rl ind)).length : ℚ) * (15/100)
      let suspicious0 : ℚ :=
        ((suspiciousPatterns.filter
          (fun pr => containsSeq pr.1.data pr.2.data rl.data)).length : ℚ) * (1/10)
      let wc := wordCount s
      let false1 := if wc < 15 then false0 + 2/10 else false0
      let genuine1 := if ¬ wc < 15 ∧ 30 < wc then genuine0 + 1/10 else genuine0
      let genuine_confidence := min genuine1 1
      let false_confidence := min false1 1
      let suspicious_confidence := min suspicious0 1
      if 6/10 < genuine_confidence ∧ false_confidence < 3/10 then
        { classification := "genuine"
          confidence := pyRound2 genuine_confidence
          reasoning := "Strong indicators of genuine emergency: " ++
            String.intercalate ", " matched ++ ". " ++
            (if genuine_confidence < 8/10 then
              "Requires admin verification for final approval."
             else "Automatically approved based on clear emergency indicators.")
          requires_admin_review := genuine_confidence < 8/10
          suggested_priority := "EMERGENCY"
          matched_categories := some matched
          timestamp := some now }
      else if 5/10 < false_confidence ∨ genuine_confidence < 2/10 then
        { classification := "false"
          confidence := pyRound2 false_confidence
          reasoning := "No genuine emergency indicators found. Claim appears to be convenience-based rather than urgent necessity."
          requires_admin_review := false
          suggested_priority := "NORMAL"
          matched_categories := some []
          timestamp := some now }
      else
        { classification := "suspicious"
          confidence := pyRound2 (5/10 + suspicious_confidence)
          reasoning := "Mixed indicators detected. Manual admin review required to verify authenticity of emergency claim."
          requires_admin_review := true
          suggested_priority := "NORMAL"
          matched_categories := some []
          timestamp := some now }

/-- EmergencyClassifier.classify.  The reason argument is an Option so the
Python call with None is representable (the guard not reason catches both
None and the empty string before reason.strip() is evaluated). -/
def classifyEmergency (now : String) (reason : Option String)
    (emergency_type : Option String) : ClaimClassification :=
  match reason with
  | none => shortReasonResult
  | some s =>
    if s.length = 0 ∨ (pyStrip s).length < 10 then shortReasonResult
    else classifyLongReason now s

/-
  EmergencyClassifier.verify_senior_citizen: datetime model.
-/

/-- A Python datetime value: the calendar and clock fields plus the
timezone offset in minutes for an aware value (none for a naive one).
Microseconds are not modelled (no claim involves them). -/
structure PyDateTime where
  year : ℕ
  month : ℕ
  day : ℕ
  hour : ℕ
  minute : ℕ
  second : ℕ
  tzOffsetMinutes : Option ℤ
deriving DecidableEq

/-- Python str.replace applied with the single-character needle Z, as in
date_of_birth.replace(Z-string, offset-string) at line 133. -/
def replaceZChars : List Char → List Char
  | [] => []
  | c :: r =>
    if c = 'Z' then '+' :: '0' :: '0' :: ':' :: '0' :: '0' :: replaceZChars r
    else c :: replaceZChars r

def pyReplaceZ (s : String) : String := ⟨replaceZChars s.data⟩

def parse2Digits : List Char → Option (ℕ × List Char)
  | a :: b :: r =>
    if a.isDigit && b.isDigit then
      some ((a.toNat - 48) * 10 + (b.toNat - 48), r)
    else none
  | _ => none

def parse4Digits : List Char → Option (ℕ × List Char)
  | a :: b :: c :: d :: r =>
    if a.isDigit && b.isDigit && c.isDigit && d.isDigit then
      some ((a.toNat - 48) * 1000 + (b.toNat - 48) * 100 +
            (c.toNat - 48) * 10 + (d.toNat - 48), r)
    else none
  | _ => none

def expectChar (c : Char) : List Char → Option (List Char)
  | x :: r => if x = c then some r else none
  | [] => none

def isLeapYear (y : ℕ) : Bool :=
  (y % 4 == 0 && !(y % 100 == 0)) || y % 400 == 0

def daysInMonth (y m : ℕ) : ℕ :=
  if m = 2 then (if isLeapYear y then 29 else 28)
  else if m = 4 ∨ m = 6 ∨ m = 9 ∨ m = 11 then 30
  else 31

/-- Trailing UTC-offset part: empty for a naive value, or a sign with
HH:MM consuming the rest of the string (offset seconds and microseconds,
accepted by Python but never exercised here, are not modelled). -/
def parseTzSuffix : List Char → Option (Option ℤ)
  | [] => some none
  | sign :: r =>
    if sign = '+' ∨ sign = '-' then
      match parse2Digits r with
      | none => none
      | some (oh, r1) =>
        match expectChar ':' r1 with
        | none => none
        | some r2 =>
          match parse2Digits r2 with
          | none => none
          | some (om, r3) =>
            if r3 = [] ∧ oh ≤ 23 ∧ om ≤ 59 then
              some (some ((if sign = '-' then -1 else 1) * ((oh : ℤ) * 60 + om)))
            else none
    else none

/-- Clock part HH:MM with optional seconds, then the offset suffix. -/
def parseClock (y m d : ℕ) : List Char → Option PyDateTime
  | cs =>
    match parse2Digits cs with
    | none => none
    | some (hh, r1) =>
      match expectChar ':' r1 with
      | none => none
      | some r2 =>
        match parse2Digits r2 with
        | none => none
        | some (mi, r3) =>
          match r3 with
          | ':' :: r4 =>
            match parse2Digits r4 with
            | none => none
            | some (ss, r5) =>
              match parseTzSuffix r5 with
              | none => none
              | some tz =>
                if hh ≤ 23 ∧ mi ≤ 59 ∧ ss ≤ 59 then
                  some ⟨y, m, d, hh, mi, ss, tz⟩
                else none
          | _ =>
            match parseTzSuffix r3 with
            | none => none
            | some tz =>
              if hh ≤ 23 ∧ mi ≤ 59 then some ⟨y, m, d, hh, mi, 0, tz⟩ else none

/-- datetime.fromisoformat, restricted to the core grammar
YYYY-MM-DD, optionally followed by a separator (T or space) and
HH:MM or HH:MM:SS, optionally followed by a +HH:MM or -HH:MM offset.
Fractional seconds are not modelled.  Field ranges are validated as in
Python (month 1-12, day within the month, year at least 1). -/
def fromisoformat (s : String) : Option PyDateTime :=
  match parse4Digits s.data with
  | none => none
  | some (y, r1) =>
    match expectChar '-' r1 with
    | none => none
    | some r2 =>
      match parse2Digits r2 with
      | none => none
      | some (m, r3) =>
        match expectChar '-' r3 with
        | none => none
        | some r4 =>
          match parse2Digits r4 with
          | none => none
          | some (d, r5) =>
            if 1 ≤ y ∧ 1 ≤ m ∧ m ≤ 12 ∧ 1 ≤ d ∧ d ≤ daysInMonth y m then
              match r5 with
              | [] => some ⟨y, m, d, 0, 0, 0, none⟩
              | sep :: r6 =>
                if sep = 'T' ∨ sep = ' ' then parseClock y m d r6 else none
            else none

/-- Days since 1970-01-01 of a proleptic Gregorian calendar date
(the days-from-civil algorithm). -/
def civilToDays (y m d : ℕ) : ℤ :=
  let yAdj : ℤ := if m ≤ 2 then (y : ℤ) - 1 else (y : ℤ)
  let era : ℤ := Int.fdiv yAdj 400
  let yoe : ℤ := yAdj - era * 400
  let mp : ℤ := if 2 < m then (m : ℤ) - 3 else (m : ℤ) + 9
  let doy : ℤ := Int.fdiv (153 * mp + 2) 5 + (d : ℤ) - 1
  let doe : ℤ := yoe * 365 + Int.fdiv yoe 4 - Int.fdiv yoe 100 + doy
  era * 146097 + doe - 719468

/-- Seconds since the epoch of the naive calendar-and-clock part. -/
def pyDateTimeToSeconds (dt : PyDateTime) : ℤ :=
  civilToDays dt.year dt.month dt.day * 86400 +
    (dt.hour : ℤ) * 3600 + (dt.minute : ℤ) * 60 + (dt.second : ℤ)

/-- Return value of verify_senior_citizen.  The reasoning string (pure
text, containing str(e) on failure) is not modelled. -/
structure AgeVerification where
  is_senior : Bool
  actual_age : Option ℤ
  confidence : ℚ
  requires_document : Bool
deriving DecidableEq

/-- The except-branch result of verify_senior_citizen. -/
def degradedAgeResult : AgeVerification :=
  { is_senior := false, actual_age := none, confidence := 0, requires_document := true }

/-- EmergencyClassifier.verify_senior_citizen.  The now argument is the
naive datetime.now() of the call.  When the parsed date of birth is aware
(a Z suffix was rewritten to +00:00, or an explicit offset was given), the
source subtraction now - dob raises TypeError (offset-naive minus
offset-aware), which the except clause turns into the degraded result.
Note Python claimed_age or age also replaces a claimed age of 0 by the
computed age, since 0 is falsy; timedelta days and the age division are
both floor divisions. -/
def verify_senior_citizen (now : PyDateTime) (date_of_birth : String)
    (claimed_age : Option ℤ) : AgeVerification :=
  match fromisoformat (pyReplaceZ date_of_birth) with
  | none => degradedAgeResult
  | some dob =>
    match dob.tzOffsetMinutes with
    | some _ => degradedAgeResult
    | none =>
      let days := Int.fdiv (pyDateTimeToSeconds now - pyDateTimeToSeconds dob) 86400
      let age := Int.fdiv days 365
      let is_senior := decide (60 ≤ age)
      let effectiveClaim :=
        match claimed_age with
        | none => age
        | some c => if c = 0 then age else c
      let confidence : ℚ := if (age - effectiveClaim).natAbs ≤ 1 then 1 else 7/10
      { is_senior := is_senior
        actual_age := some age
        confidence := confidence
        requires_document := !is_senior || decide (confidence < 9/10) }

/-
  EmergencyClassifier.validate_aadhaar_format:
  bool(re.match of the pattern caret-backslash-d-12-dollar).
-/

/-- Python regex backslash-d matches any Unicode decimal digit (category
Nd).  Modelled as the ASCII digits plus two representative Nd blocks, the
Arabic-Indic and Devanagari digits (the full Nd table is much larger; the
claims only need that it strictly contains the ASCII digits). -/
def isPyDigit (c : Char) : Bool :=
  c.isDigit || (0x660 ≤ c.toNat && c.toNat ≤ 0x669) ||
    (0x966 ≤ c.toNat && c.toNat ≤ 0x96F)

/-- Match exactly n digit characters from the front, returning the rest. -/
def matchDigits : ℕ → List Char → Option (List Char)
  | 0, cs => some cs
  | _ + 1, [] => none
  | n + 1, c :: cs => if isPyDigit c then matchDigits n cs else none

/-- The Python regex dollar anchor: matches at the end of the string or
just before a single trailing newline. -/
def matchDollar : List Char → Bool
  | [] => true
  | [c] => c == '\n'
  | _ :: _ :: _ => false

/-- EmergencyClassifier.validate_aadhaar_format. -/
def validate_aadhaar_format (aadhaar_number : String) : Bool :=
  match matchDigits 12 aadhaar_number.data with
  | some rest => matchDollar rest
  | none => false

/-- A concrete naive value of datetime.now() used to exercise
verify_senior_citizen. -/
def exampleNow : PyDateTime := ⟨2026, 10, 12, 0, 0, 0, none⟩

/-
  Helper lemmas.
-/

theorem pyRoundInt_ge (a : ℤ) (q : ℚ) (h : (a : ℚ) ≤ q) : a ≤ pyRoundInt q := by
  have hf : a ≤ ⌊q⌋ := Int.le_floor.mpr h
  unfold pyRoundInt
  split_ifs <;> omega

theorem pyRoundInt_le (b : ℤ) (q : ℚ) (h : q ≤ (b : ℚ)) : pyRoundInt q ≤ b := by
  have hfl : ⌊q⌋ ≤ b := by
    have := Int.floor_le_floor h
    simpa using this
  unfold pyRoundInt
  split_ifs with h1 h2 h3
  · exact hfl
  · have hq : (⌊q⌋ : ℚ) + 1/2 ≤ q := by linarith [h2]
    have hlt : (⌊q⌋ : ℚ) < (b : ℚ) := by linarith
    have : ⌊q⌋ < b := by exact_mod_cast hlt
    omega
  · exact hfl
  · have hge : (1 : ℚ)/2 ≤ q - (⌊q⌋ : ℚ) := not_lt.mp h1
    have hlt : (⌊q⌋ : ℚ) < (b : ℚ) := by linarith
    have : ⌊q⌋ < b := by exact_mod_cast hlt
    omega

theorem pyRound3_mem (x : ℚ) (h1 : 1/100 ≤ x) (h2 : x ≤ 70/100) :
    1/100 ≤ pyRound3 x ∧ pyRound3 x ≤ 70/100 := by
  have g1 : ((10 : ℤ) : ℚ) ≤ x * 1000 := by push_cast; linarith
  have g2 : x * 1000 ≤ ((700 : ℤ) : ℚ) := by push_cast; linarith
  have r1 := pyRoundInt_ge 10 (x * 1000) g1
  have r2 := pyRoundInt_le 700 (x * 1000) g2
  have c1 : (10 : ℚ) ≤ (pyRoundInt (x * 1000) : ℚ) := by exact_mod_cast r1
  have c2 : ((pyRoundInt (x * 1000) : ℚ)) ≤ 700 := by exact_mod_cast r2
  unfold pyRound3
  constructor <;> linarith

theorem pyTrunc_eq_floor {q : ℚ} (h : 0 ≤ q) : pyTrunc q = ⌊q⌋ :=
  if_neg (not_lt.mpr h)

theorem pyTrunc_mono {x y : ℚ} (h : x ≤ y) : pyTrunc x ≤ pyTrunc y := by
  unfold pyTrunc
  split_ifs with hx hy hy
  · exact Int.ceil_le_ceil h
  · have h1 : ⌈x⌉ ≤ 0 := Int.ceil_le.mpr (by exact_mod_cast le_of_lt hx)
    have h2 : 0 ≤ ⌊y⌋ := Int.floor_nonneg.mpr (not_lt.mp hy)
    omega
  · exact absurd (lt_of_le_of_lt h hy) hx
  · exact Int.floor_le_floor h

theorem lookupAssoc_some_mem :
    ∀ {l : List (String × ℤ)} {s : String} {v : ℤ},
      lookupAssoc l s = some v → ∃ p ∈ l, p.2 = v := by
  intro l
  induction l with
  | nil => intro s v h; simp [lookupAssoc] at h
  | cons hd tl ih =>
    intro s v h
    rw [lookupAssoc] at h
    split_ifs at h with hk
    · have hv : hd.2 = v := by
        have : some hd.2 = some v := h
        exact Option.some.inj this
      exact ⟨hd, by simp, hv⟩
    · obtain ⟨p, hp, hv⟩ := ih h
      exact ⟨p, by simp [hp], hv⟩

theorem getAvgServiceTime_ge_five {st : WaitState} (hw : WaitStateWF st)
    (sid : String) : 5 ≤ getAvgServiceTime st sid := by
  unfold getAvgServiceTime
  split
  · next v hv =>
    obtain ⟨p, hp, hpv⟩ := lookupAssoc_some_mem hv
    have := hw p hp
    omega
  · split
    · next v hv =>
      obtain ⟨p, hp, hpv⟩ := lookupAssoc_some_mem hv
      have := hw p hp
      omega
    · norm_num

theorem priorityMultiplier_pos (p : String) : 0 < priorityMultiplier p := by
  unfold priorityMultiplier
  split_ifs <;> norm_num

theorem timeMultiplier_pos (h : ℕ) : 0 < timeMultiplier h := by
  unfold timeMultiplier
  split_ifs <;> norm_num

theorem dayMultiplier_pos (w : ℕ) : 0 < dayMultiplier w := by
  unfold dayMultiplier
  split_ifs <;> norm_num

theorem waitPredict_minutes_eq (st : WaitState) (sid : String) (qp : ℤ)
    (p : String) (h w : ℕ) (r : ℚ) :
    (waitPredict st sid qp p h w r).predicted_wait_time =
      max 3 (min (pyTrunc (applyVariation st sid
        (((qp : ℚ) * (getAvgServiceTime st sid : ℚ)) * priorityMultiplier p *
          timeMultiplier h * dayMultiplier w) r)) 240) := rfl

theorem applyVariation_not_mem {st : WaitState} {sid : String}
    (h : sid ∉ st.histServices) (a r : ℚ) : applyVariation st sid a r = a :=
  if_neg h

theorem waitPredict_rng_irrel {st : WaitState} {sid : String}
    (hn : sid ∉ st.histServices) (qp : ℤ) (p : String) (h w : ℕ) (r r' : ℚ) :
    waitPredict st sid qp p h w r = waitPredict st sid qp p h w r' := by
  simp only [waitPredict, applyVariation_not_mem hn]

theorem waitPredict_mono {st : WaitState} (hw : WaitStateWF st) {sid : String}
    (hn : sid ∉ st.histServices) {qp qp' : ℤ} (hqp : qp ≤ qp')
    (p : String) (h w : ℕ) (r r' : ℚ) :
    (waitPredict st sid qp p h w r).predicted_wait_time ≤
      (waitPredict st sid qp' p h w r').predicted_wait_time := by
  rw [waitPredict_minutes_eq, waitPredict_minutes_eq,
    applyVariation_not_mem hn, applyVariation_not_mem hn]
  have hb : (0 : ℚ) ≤ (getAvgServiceTime st sid : ℚ) := by
    have := getAvgServiceTime_ge_five hw sid
    exact_mod_cast le_trans (by norm_num) this
  have hf : (0 : ℚ) ≤ (getAvgServiceTime st sid : ℚ) * priorityMultiplier p *
      timeMultiplier h * dayMultiplier w := by
    have h1 := le_of_lt (priorityMultiplier_pos p)
    have h2 := le_of_lt (timeMultiplier_pos h)
    have h3 := le_of_lt (dayMultiplier_pos w)
    positivity
  have hc : ((qp : ℚ) * (getAvgServiceTime st sid : ℚ)) * priorityMultiplier p *
      timeMultiplier h * dayMultiplier w ≤
      ((qp' : ℚ) * (getAvgServiceTime st sid : ℚ)) * priorityMultiplier p *
      timeMultiplier h * dayMultiplier w := by
    have hq : (qp : ℚ) ≤ (qp' : ℚ) := by exact_mod_cast hqp
    calc ((qp : ℚ) * (getAvgServiceTime st sid : ℚ)) * priorityMultiplier p *
        timeMultiplier h * dayMultiplier w
        = (qp : ℚ) * ((getAvgServiceTime st sid : ℚ) * priorityMultiplier p *
            timeMultiplier h * dayMultiplier w) := by ring
      _ ≤ (qp' : ℚ) * ((getAvgServiceTime st sid : ℚ) * priorityMultiplier p *
            timeMultiplier h * dayMultiplier w) := mul_le_mul_of_nonneg_right hq hf
      _ = ((qp' : ℚ) * (getAvgServiceTime st sid : ℚ)) * priorityMultiplier p *
            timeMultiplier h * dayMultiplier w := by ring
  exact max_le_max le_rfl (min_le_min (pyTrunc_mono hc) le_rfl)

theorem waitPredict_minutes_bounds (st : WaitState) (sid : String) (qp : ℤ)
    (p : String) (h w : ℕ) (r : ℚ) :
    3 ≤ (waitPredict st sid qp p h w r).predicted_wait_time ∧
      (waitPredict st sid qp p h w r).predicted_wait_time ≤ 240 := by
  rw [waitPredict_minutes_eq]
  exact ⟨le_max_left 3 _, max_le (by norm_num) (min_le_right _ 240)⟩

/-
  Claim theorems.
-/

/-- C1: the claim says the no-show wait-time adjustment is 0.15 for
estimatedWait above 90 and 0.08 for waits in (60, 90].  In the source the
branch for waits above 90 sits in an elif after the branch for waits above
60, so it can never fire: a wait of 100 minutes gets the 0.08 addition
(normal base 0.12 plus 0.08 gives 0.20), the same as a wait of 80, and not
the 0.15 addition (which would give 0.27). -/
theorem noShow_wait_adjustment_dead_elif :
    (noShowPredict "T1" "S1" "normal" 1 2 10 100).no_show_probability = 20/100 ∧
    (noShowPredict "T1" "S1" "normal" 1 2 10 80).no_show_probability = 20/100 ∧
    (noShowPredict "T1" "S1" "normal" 1 2 10 100).no_show_probability ≠ 27/100 := by
  refine ⟨by decide, by decide, by decide⟩

set_option maxRecDepth 4000 in
/-- C2 counterexample: with historical data present for the service (a
state produced by train on 30 records), two calls with identical inputs
return different results, because each call draws a fresh uniform
variation from [0.9, 1.1]; the draws 1 and 1.1 give 100 and 110 minutes. -/
theorem waitPredict_differs_across_random_draws :
    waitPredict trainedState "svc" 10 "normal" 17 2 1 ≠
      waitPredict trainedState "svc" 10 "normal" 17 2 (11/10) := by
  decide

/-- C2 amended: two calls of the wait-time estimator with identical inputs
yield identical output whenever the service has no historical data: the
result is then independent of the per-call random draw.  (With historical
data present the fresh uniform draw makes equal-input calls differ, and the
emergency classifier result embeds the wall-clock call timestamp; the
remaining estimators are pure functions of their arguments.) -/
theorem waitPredict_deterministic_without_history :
    ∀ (st : WaitState) (sid : String) (qp : ℤ) (p : String) (h w : ℕ) (r r' : ℚ),
      sid ∉ st.histServices →
      waitPredict st sid qp p h w r = waitPredict st sid qp p h w r' := by
  intro st sid qp p h w r r' hn
  exact waitPredict_rng_irrel hn qp p h w r r'

theorem waitPredict_deterministic_without_history_witness :
    waitPredict initialWaitState "clinic" 5 "normal" 10 2 (9/10) =
      waitPredict initialWaitState "clinic" 5 "normal" 10 2 (11/10) :=
  waitPredict_deterministic_without_history initialWaitState "clinic" 5 "normal"
    10 2 (9/10) (11/10) (by decide)

/-- C3 counterexample: the claim says any string outside the four enum
values, for example EMERGENCY in upper case, behaves as normal.  The
source lowercases the priority before the dictionary lookup, so EMERGENCY
behaves as emergency: its no-show base probability is 0.02, not the 0.12
of normal. -/
theorem uppercase_emergency_not_treated_as_normal :
    (noShowPredict "T1" "S1" "EMERGENCY" 1 2 10 0).no_show_probability ≠
      (noShowPredict "T1" "S1" "normal" 1 2 10 0).no_show_probability := by
  decide

/-- C3 amended: for every priority string whose lowercasing is not one of
the four enum values, the wait-time estimator and the no-show scorer
return exactly the result they return for normal, and never raise (both
are total functions); a string that lowercases to an enum value behaves as
that value. -/
theorem unrecognized_priority_falls_back_to_normal :
    ∀ (p : String), pyLower p ≠ "emergency" → pyLower p ≠ "disabled" →
      pyLower p ≠ "senior" → pyLower p ≠ "normal" →
      (∀ (st : WaitState) (sid : String) (qp : ℤ) (h w : ℕ) (r : ℚ),
        waitPredict st sid qp p h w r = waitPredict st sid qp "normal" h w r) ∧
      (∀ (tok sv : String) (qp dw hd ew : ℤ),
        noShowPredict tok sv p qp dw hd ew =
          noShowPredict tok sv "normal" qp dw hd ew) := by
  intro p h1 h2 h3 h4
  have hpm : priorityMultiplier p = priorityMultiplier "normal" := by
    unfold priorityMultiplier
    rw [if_neg h1, if_neg h2, if_neg h3, if_neg h4]
    decide
  have hbp : noShowBaseProb p = noShowBaseProb "normal" := by
    unfold noShowBaseProb
    rw [if_neg h1, if_neg h2, if_neg h3, if_neg h4]
    decide
  constructor
  · intro st sid qp h w r
    simp only [waitPredict, hpm]
  · intro tok sv qp dw hd ew
    simp only [noShowPredict, noShowFinal, noShowRaw, hbp]

theorem unrecognized_priority_falls_back_to_normal_witness :
    waitPredict initialWaitState "s" 3 "vip" 10 2 1 =
      waitPredict initialWaitState "s" 3 "normal" 10 2 1 ∧
    noShowPredict "T1" "S1" "vip" 2 3 9 0 =
      noShowPredict "T1" "S1" "normal" 2 3 9 0 :=
  ⟨(unrecognized_priority_falls_back_to_normal "vip" (by decide) (by decide)
      (by decide) (by decide)).1 initialWaitState "s" 3 10 2 1,
   (unrecognized_priority_falls_back_to_normal "vip" (by decide) (by decide)
      (by decide) (by decide)).2 "T1" "S1" 2 3 9 0⟩

set_option maxRecDepth 4000 in
/-- C4 counterexample: on a service with historical data (state produced
by train), the per-call uniform draw breaks monotonicity in queue
position: position 11 with draw 0.9 yields 99 minutes, less than the 110
minutes of position 10 with draw 1.1, all other inputs equal. -/
theorem waitPredict_minutes_can_decrease_with_position :
    (waitPredict trainedState "svc" 11 "normal" 17 2 (9/10)).predicted_wait_time <
      (waitPredict trainedState "svc" 10 "normal" 17 2 (11/10)).predicted_wait_time := by
  decide

/-- C4 amended: the minutes field always lies in [3, 240] (for every
state, priority, queue position, time and draw), and minutes is monotone
nondecreasing in queuePosition, holding serviceId, priority and
currentTime fixed, whenever the service has no historical data (in
particular in the untrained engine, hence for the whole prediction
service as deployed, which never calls train); with historical data the
per-call random draw can reverse the order. -/
theorem waitPredict_bounds_and_monotonicity :
    (∀ (st : WaitState) (sid p : String) (h w : ℕ) (qp : ℤ) (r : ℚ),
      3 ≤ (waitPredict st sid qp p h w r).predicted_wait_time ∧
        (waitPredict st sid qp p h w r).predicted_wait_time ≤ 240) ∧
    (∀ (st : WaitState) (sid p : String) (h w : ℕ) (qp qp' : ℤ) (r r' : ℚ),
      WaitStateWF st → sid ∉ st.histServices → 1 ≤ qp → qp ≤ qp' →
      (waitPredict st sid qp p h w r).predicted_wait_time ≤
        (waitPredict st sid qp' p h w r').predicted_wait_time) := by
  constructor
  · intro st sid p h w qp r
    exact waitPredict_minutes_bounds st sid qp p h w r
  · intro st sid p h w qp qp' r r' hwf hn _ hqp
    exact waitPredict_mono hwf hn hqp p h w r r'

theorem waitPredict_bounds_and_monotonicity_witness :
    (3 ≤ (waitPredict initialWaitState "s" 1 "senior" 10 0 1).predicted_wait_time ∧
      (waitPredict initialWaitState "s" 1 "senior" 10 0 1).predicted_wait_time ≤ 240) ∧
    (waitPredict initialWaitState "s" 1 "senior" 10 0 1).predicted_wait_time ≤
      (waitPredict initialWaitState "s" 2 "senior" 10 0 1).predicted_wait_time :=
  ⟨waitPredict_bounds_and_monotonicity.1 initialWaitState "s" "senior" 10 0 1 1,
   waitPredict_bounds_and_monotonicity.2 initialWaitState "s" "senior" 10 0 1 2 1 1
     (by intro p hp; simp only [initialWaitState, List.mem_singleton] at hp;
         subst hp; decide)
     (by decide) (by decide) (by decide)⟩

/-- C5: for every input, the no-show probability lies in [0.01, 0.70], and
for priority emergency, queue position 1, hour 10, weekday 2, wait 0 it is
exactly 0.02. -/
theorem noShow_probability_bounds_and_emergency_base :
    (∀ (token_id service_id priority : String) (qp dw hd ew : ℤ),
      1 ≤ qp → 0 ≤ dw → dw ≤ 6 → 0 ≤ hd → hd ≤ 23 → 0 ≤ ew →
      1/100 ≤ (noShowPredict token_id service_id priority qp dw hd ew).no_show_probability ∧
        (noShowPredict token_id service_id priority qp dw hd ew).no_show_probability ≤ 70/100) ∧
    (noShowPredict "T1" "S1" "emergency" 1 2 10 0).no_show_probability = 2/100 := by
  constructor
  · intro tok sv p qp dw hd ew _ _ _ _ _ _
    have hproj : (noShowPredict tok sv p qp dw hd ew).no_show_probability
        = pyRound3 (noShowFinal p qp dw hd ew) := rfl
    rw [hproj]
    apply pyRound3_mem <;> unfold noShowFinal
    · exact le_min (by norm_num) (le_max_left _ _)
    · exact min_le_left _ _
  · decide

theorem noShow_probability_bounds_and_emergency_base_witness :
    (1/100 ≤ (noShowPredict "T1" "S1" "senior" 16 4 18 70).no_show_probability ∧
      (noShowPredict "T1" "S1" "senior" 16 4 18 70).no_show_probability ≤ 70/100) ∧
    (noShowPredict "T1" "S1" "emergency" 1 2 10 0).no_show_probability = 2/100 :=
  ⟨noShow_probability_bounds_and_emergency_base.1 "T1" "S1" "senior" 16 4 18 70
      (by decide) (by decide) (by decide) (by decide) (by decide) (by decide),
   noShow_probability_bounds_and_emergency_base.2⟩

/-- C10: the no-show scorer never reads its token_id and service_id
arguments, so its entire result is identical across calls that agree on
priority, queue position, weekday, hour and estimated wait. -/
theorem noShow_independent_of_token_and_service :
    ∀ (t1 s1 t2 s2 priority : String) (qp dw hd ew : ℤ),
      noShowPredict t1 s1 priority qp dw hd ew =
        noShowPredict t2 s2 priority qp dw hd ew := by
  intros
  rfl

theorem pyTrunc_three_quarters_le (pd : ℤ) (h : 0 ≤ pd) :
    pyTrunc ((pd : ℚ) * (75/100)) ≤ pd := by
  have hq : (0 : ℚ) ≤ (pd : ℚ) := by exact_mod_cast h
  have h0 : (0 : ℚ) ≤ (pd : ℚ) * (75/100) := by positivity
  rw [pyTrunc_eq_floor h0]
  have hle : (pd : ℚ) * (75/100) ≤ ((pd : ℤ) : ℚ) := by push_cast; nlinarith
  calc ⌊(pd : ℚ) * (75/100)⌋ ≤ ⌊((pd : ℤ) : ℚ)⌋ := Int.floor_le_floor hle
    _ = pd := Int.floor_intCast pd

theorem le_pyTrunc_five_quarters (pd : ℤ) (h : 0 ≤ pd) :
    pd ≤ pyTrunc ((pd : ℚ) * (125/100)) := by
  have hq : (0 : ℚ) ≤ (pd : ℚ) := by exact_mod_cast h
  have h0 : (0 : ℚ) ≤ (pd : ℚ) * (125/100) := by positivity
  rw [pyTrunc_eq_floor h0]
  exact Int.le_floor.mpr (by nlinarith)

theorem predictHourDemand_ge_one (sid : String) (hour wd : ℕ) :
    1 ≤ predictHourDemand sid hour wd :=
  le_max_left 1 _

theorem mkForecastPoint_spec (sid : String) (cur k : ℕ) :
    (mkForecastPoint sid cur k).timestampHours = cur + k ∧
    (mkForecastPoint sid cur k).lower_bound ≤ (mkForecastPoint sid cur k).predicted_tokens ∧
    (mkForecastPoint sid cur k).predicted_tokens ≤ (mkForecastPoint sid cur k).upper_bound ∧
    1 ≤ (mkForecastPoint sid cur k).predicted_tokens := by
  have hpd : 1 ≤ predictHourDemand sid ((cur + k) % 24) ((cur + k) / 24 % 7) :=
    predictHourDemand_ge_one sid _ _
  have hpd0 : 0 ≤ predictHourDemand sid ((cur + k) % 24) ((cur + k) / 24 % 7) :=
    le_trans (by norm_num) hpd
  exact ⟨rfl, pyTrunc_three_quarters_le _ hpd0, le_pyTrunc_five_quarters _ hpd0, hpd⟩

theorem forecastPoints_length (sid : String) (h cur : ℕ) :
    (forecastPoints sid h cur).length = h := by
  simp [forecastPoints]

theorem forecastPoints_get (sid : String) (h cur : ℕ) (i : ℕ)
    (hi : i < (forecastPoints sid h cur).length) :
    (forecastPoints sid h cur).get ⟨i, hi⟩ = mkForecastPoint sid cur (i + 1) := by
  unfold forecastPoints at hi ⊢
  rw [List.get_eq_getElem]
  simp [List.getElem_map, List.getElem_range]

/-- C6: for every horizon of at least one hour, the forecast succeeds and
returns exactly horizonHours points, whose hour offsets from currentTime
are 1, 2, ..., horizonHours in strictly increasing order, and every point
has lowerBound at most predictedVolume, predictedVolume at most
upperBound, and predictedVolume at least 1. -/
theorem forecast_horizon_offsets_and_bounds :
    ∀ (sid : String) (h cur : ℕ), 1 ≤ h →
      ∃ r, forecastDemand sid h cur = some r ∧
        r.forecast.length = h ∧
        (∀ i (hi : i < r.forecast.length),
          (r.forecast.get ⟨i, hi⟩).timestampHours = cur + (i + 1)) ∧
        (∀ p ∈ r.forecast,
          p.lower_bound ≤ p.predicted_tokens ∧
          p.predicted_tokens ≤ p.upper_bound ∧ 1 ≤ p.predicted_tokens) := by
  intro sid h cur hh
  have hlen : (forecastPoints sid h cur).length = h := forecastPoints_length sid h cur
  obtain ⟨p, rest, hpts⟩ : ∃ p rest, forecastPoints sid h cur = p :: rest := by
    cases hp : forecastPoints sid h cur with
    | nil =>
      rw [hp] at hlen
      simp at hlen
      omega
    | cons a l => exact ⟨a, l, rfl⟩
  have hfd : forecastDemand sid h cur = some
      { forecast := p :: rest
        confidence := "medium"
        model_used := "time_series_v2"
        total_predicted_tokens := ((p :: rest).map (fun f => f.predicted_tokens)).sum
        peak_demand := (firstPeak p rest).predicted_tokens
        recommended_total_staff := (firstPeak p rest).recommended_counters } := by
    unfold forecastDemand
    rw [hpts]
  refine ⟨{ forecast := forecastPoints sid h cur
            confidence := "medium"
            model_used := "time_series_v2"
            total_predicted_tokens := ((p :: rest).map (fun f => f.predicted_tokens)).sum
            peak_demand := (firstPeak p rest).predicted_tokens
            recommended_total_staff := (firstPeak p rest).recommended_counters },
    ?_, ?_, ?_, ?_⟩
  · rw [hfd, hpts]
  · exact forecastPoints_length sid h cur
  · intro i hi
    show ((forecastPoints sid h cur).get ⟨i, hi⟩).timestampHours = cur + (i + 1)
    rw [forecastPoints_get]
    exact (mkForecastPoint_spec sid cur (i + 1)).1
  · intro q hq
    have hq' : q ∈ forecastPoints sid h cur := hq
    obtain ⟨⟨i, hi⟩, hgi⟩ := List.mem_iff_get.mp hq'
    rw [forecastPoints_get] at hgi
    rw [← hgi]
    exact (mkForecastPoint_spec sid cur (i + 1)).2

theorem forecast_horizon_offsets_and_bounds_witness :
    ∃ r, forecastDemand "s" 1 0 = some r ∧
      r.forecast.length = 1 ∧
      (∀ i (hi : i < r.forecast.length),
        (r.forecast.get ⟨i, hi⟩).timestampHours = 0 + (i + 1)) ∧
      (∀ p ∈ r.forecast,
        p.lower_bound ≤ p.predicted_tokens ∧
        p.predicted_tokens ≤ p.upper_bound ∧ 1 ≤ p.predicted_tokens) :=
  forecast_horizon_offsets_and_bounds "s" 1 0 (by decide)

theorem matchDigits_eq_some (n : ℕ) : ∀ (cs rest : List Char),
    matchDigits n cs = some rest ↔
      (n ≤ cs.length ∧ (∀ c ∈ cs.take n, isPyDigit c = true) ∧ rest = cs.drop n) := by
  induction n with
  | zero =>
    intro cs rest
    simp only [matchDigits, Option.some.injEq, Nat.zero_le, true_and, List.take_zero,
      List.not_mem_nil, false_implies, implies_true, List.drop_zero]
    exact eq_comm
  | succ m ih =>
    intro cs rest
    cases cs with
    | nil => simp [matchDigits]
    | cons c t =>
      rw [matchDigits]
      by_cases hd : isPyDigit c = true
      · rw [if_pos hd, ih]
        simp only [List.length_cons, List.take_succ_cons, List.mem_cons, List.drop_succ_cons]
        constructor
        · rintro ⟨h1, h2, h3⟩
          refine ⟨by omega, ?_, h3⟩
          rintro x (rfl | hx)
          · exact hd
          · exact h2 x hx
        · rintro ⟨h1, h2, h3⟩
          exact ⟨by omega, fun x hx => h2 x (Or.inr hx), h3⟩
      · rw [if_neg hd]
        constructor
        · rintro ⟨⟩
        · rintro ⟨h1, h2, h3⟩
          exact absurd (h2 c (by simp)) hd

theorem matchDollar_iff (rest : List Char) :
    matchDollar rest = true ↔ (rest = [] ∨ rest = ['\n']) := by
  match rest with
  | [] => simp [matchDollar]
  | [c] => simp [matchDollar]
  | a :: b :: t => simp [matchDollar]

/-- C7 counterexample: the claim says the validator accepts exactly the
strings made of 12 ASCII digits and nothing else.  Python re.match of the
anchored twelve-digit pattern also accepts a trailing newline, because the
dollar anchor matches just before a final newline: the 13-character string
of 12 digits followed by a newline is accepted. -/
theorem aadhaar_accepts_trailing_newline :
    validate_aadhaar_format "123456789012\n" = true ∧
      ("123456789012\n").length ≠ 12 := by
  exact ⟨by decide, by decide⟩

/-- C7 amended: the three concrete examples behave as claimed, and in
general the validator accepts exactly the strings whose first 12
characters are decimal digits (Python backslash-d also covers non-ASCII
Unicode decimal digits, modelled by two representative blocks) followed by
nothing or by one single trailing newline. -/
theorem aadhaar_validator_characterization :
    validate_aadhaar_format "123456789012" = true ∧
    validate_aadhaar_format "12345" = false ∧
    validate_aadhaar_format "12345678901a" = false ∧
    ∀ s : String, validate_aadhaar_format s = true ↔
      ((∀ c ∈ s.data.take 12, isPyDigit c = true) ∧ 12 ≤ s.data.length ∧
        (s.data.drop 12 = [] ∨ s.data.drop 12 = ['\n'])) := by
  refine ⟨by decide, by decide, by decide, ?_⟩
  intro s
  unfold validate_aadhaar_format
  cases hm : matchDigits 12 s.data with
  | none =>
    constructor
    · intro hfalse
      cases hfalse
    · rintro ⟨hall, hlen, _⟩
      have hsome : matchDigits 12 s.data = some (s.data.drop 12) :=
        (matchDigits_eq_some 12 s.data _).mpr ⟨hlen, hall, rfl⟩
      rw [hm] at hsome
      cases hsome
  | some rest =>
    obtain ⟨hlen, hall, hrest⟩ := (matchDigits_eq_some 12 s.data rest).mp hm
    subst hrest
    rw [matchDollar_iff]
    constructor
    · intro hd
      exact ⟨hall, hlen, hd⟩
    · rintro ⟨_, _, hd⟩
      exact hd

/-- C8: the claim says every parsable date of birth, including one with
the UTC Z suffix, yields the computed age (elapsed days floor-divided by
365) with isSenior at age 60 and above.  The source replaces Z by an
explicit offset and parses an aware datetime, then subtracts it from the
naive datetime.now(); that subtraction raises TypeError, which the except
clause converts to the degraded result.  So a perfectly parsable
Z-suffixed date of birth of 1950 is reported as not senior with confidence
0, while the identical date without the suffix yields age 76 and senior
status (now fixed at 2026-10-12). -/
theorem senior_verification_z_suffix_degraded :
    verify_senior_citizen exampleNow "1950-01-01T00:00:00Z" none = degradedAgeResult ∧
    verify_senior_citizen exampleNow "1950-01-01T00:00:00" none =
      { is_senior := true, actual_age := some 76, confidence := 1,
        requires_document := false } := by
  constructor <;> decide

/-- C9: for a missing reason, an empty reason, or a reason whose stripped
length is under 10 characters, classification returns the definitive short
result: label false, confidence 0.95, no admin review, priority NORMAL
(and never raises: the embedding is a total function). -/
theorem short_reason_definitive_false :
    ∀ (now : String) (et reason : Option String),
      (reason = none ∨ ∃ s, reason = some s ∧ (pyStrip s).length < 10) →
      classifyEmergency now reason et = shortReasonResult := by
  rintro now et reason (rfl | ⟨s, rfl, hs⟩)
  · rfl
  · show (if s.length = 0 ∨ (pyStrip s).length < 10 then shortReasonResult
      else classifyLongReason now s) = shortReasonResult
    rw [if_pos (Or.inr hs)]

theorem short_reason_definitive_false_witness :
    classifyEmergency "2025-01-01T00:00:00" (some "help") none = shortReasonResult :=
  short_reason_definitive_false "2025-01-01T00:00:00" none (some "help")
    (Or.inr ⟨"help", rfl, by decide⟩)

end VQMS
